import Mathlib

/-!
Shallow embedding of the file-backed REST CRUD server (`src/main.py`).

The embedding models:
* JSON values and Python dicts (`JValue`, `Dict`) with Python's
  insertion-order-preserving dict-merge semantics, which the handlers use to
  build records (`{'id': ..., **data}` literals);
* the Python builtins the handlers rely on (`str()`, `int()`, `str.title()`);
* the fragment of JSON-Schema validation exercised by the repository's
  schemas (`type` / `minimum` / `minLength` / `pattern` / `required` /
  `additionalProperties`), with `jsonschema.validate` default semantics
  (`format` is annotation-only and therefore not enforced);
* the five `ResourceHandler` operations plus the `PUT /schemas/<name>`
  endpoint, with the on-disk record file represented as
  `Option (List Dict)` (`none` = file absent; `load_json_file` creates it).

One source defect shapes the list path: `main.py` never imports `math`, so
the `ceil` call on the first line of `get_pagination_metadata` is an
unbound name and every collection `GET` raises `NameError` (a 500); the
embedding models that error instead of a repaired ceiling computation.
-/

set_option autoImplicit false

namespace RestServer

/-- A JSON value, as produced by Flask's `request.get_json()` and stored in
the per-resource data files. Python dicts preserve insertion order, so
objects are ordered association lists. -/
inductive JValue where
  | null
  | bool (b : Bool)
  | int (n : Int)
  | str (s : String)
  | arr (items : List JValue)
  | obj (fields : List (String × JValue))

/-- A Python dict holding one record: an ordered association list from field
name to JSON value (keys unique, insertion order preserved). -/
abbrev Dict := List (String × JValue)

/-- Lookup `d.get(k)` returning `some v` when key `k` is present; Python dict lookup
(first — and only, keys being unique — entry with that key). -/
def dictLookup (d : Dict) (k : String) : Option JValue :=
  match d.find? (fun p => p.1 == k) with
  | some p => some p.2
  | none => none

/-- Python's `d.get(k)`, which yields `None` for a missing key. -/
def pyGet (d : Dict) (k : String) : JValue :=
  (dictLookup d k).getD JValue.null

/-- Setting `d[k] = v` in a Python dict: an existing key keeps its position
and gets the new value; a new key is appended at the end. -/
def dictInsert (d : Dict) (k : String) (v : JValue) : Dict :=
  if d.any (fun p => p.1 == k) then
    d.map (fun p => if p.1 == k then (k, v) else p)
  else
    d ++ [(k, v)]

/-- A Python dict display `{..base entries.., **entries}`: start from `base`
and insert every pair of `entries` in order (later keys overwrite earlier
values). This is how `create` and `update` build records. -/
def dictMerge (base : Dict) (entries : Dict) : Dict :=
  entries.foldl (fun acc kv => dictInsert acc kv.1 kv.2) base

/-- Model of Python `str()` on JSON values, as used by the handlers for id
comparison (`str(item.get('id')) == str(item_id)`). Ids in this system are
scalars; the reprs of containers are abbreviated. -/
def pyStr : JValue → String
  | .null => "None"
  | .bool true => "True"
  | .bool false => "False"
  | .int n => toString n
  | .str s => s
  | .arr _ => "[...]"
  | .obj _ => "..."

/-- Characters Python's `int(str)` and `str.strip()` treat as whitespace
(ASCII subset). -/
def isPySpace (c : Char) : Bool :=
  c == ' ' || c == Char.ofNat 9 || c == Char.ofNat 10 ||
  c == Char.ofNat 11 || c == Char.ofNat 12 || c == Char.ofNat 13

/-- Strip leading and trailing whitespace from a character list. -/
def pyStrip (cs : List Char) : List Char :=
  ((cs.dropWhile isPySpace).reverse.dropWhile isPySpace).reverse

/-- Decimal digit run to a number; `none` when empty or not all digits. -/
def digitsToNat? (cs : List Char) : Option Nat :=
  if cs.isEmpty then none
  else if cs.all Char.isDigit then
    some (cs.foldl (fun n c => 10 * n + (c.toNat - 48)) 0)
  else none

/-- Model of Python `int(s)` on a query-parameter string: surrounding
whitespace stripped, optional sign, then decimal digits; `none` models the
`ValueError` raised on anything else. (Python's digit-grouping underscores
are not modelled; no claim depends on them.) -/
def pyIntOfString? (s : String) : Option Int :=
  match pyStrip s.data with
  | [] => none
  | c :: rest =>
    if c == '-' then (digitsToNat? rest).map (fun n => -(n : Int))
    else if c == '+' then (digitsToNat? rest).map (fun n => (n : Int))
    else (digitsToNat? (c :: rest)).map (fun n => (n : Int))

/-- Helper for `pyTitle`: `prevAlpha` tells whether the previous character
was a letter. -/
def pyTitleAux : List Char → Bool → List Char
  | [], _ => []
  | c :: cs, prevAlpha =>
    (if c.isAlpha then (if prevAlpha then c.toLower else c.toUpper) else c)
      :: pyTitleAux cs c.isAlpha

/-- Model of Python `str.title()` (for ASCII): the first letter of every
alphabetic run is uppercased, the rest lowercased. Used by the handlers for
the `NotFound` error message `f"{resource_name.title()} not found"`. -/
def pyTitle (s : String) : String :=
  (pyTitleAux s.data false).asString

/-- The JSON-Schema `type` names occurring in the repository's schemas. -/
inductive JTy where
  | integer
  | string
  | null
deriving DecidableEq

/-- Does a JSON value inhabit a schema `type`? Mirrors the `jsonschema`
library checkers (note: a Python `bool` is not accepted for `"integer"`,
the library special-cases it). -/
def tyMatches (t : JTy) (v : JValue) : Bool :=
  match t, v with
  | .integer, .int _ => true
  | .string, .str _ => true
  | .null, .null => true
  | _, _ => false

/-- Characters allowed in the local part of the email pattern:
`[a-zA-Z0-9._%+-]`. -/
def isEmailLocalChar (c : Char) : Bool :=
  c.isAlpha || c.isDigit || c == '.' || c == '_' || c == '%' || c == '+' || c == '-'

/-- Characters allowed in a domain segment of the email pattern (the dots
separate segments): `[a-zA-Z0-9-]`. -/
def isEmailDomainChar (c : Char) : Bool :=
  c.isAlpha || c.isDigit || c == '-'

/-- Split a character list on a separator character (like Python's
`str.split(sep)`: `n` separators yield `n+1` segments, possibly empty). -/
def splitOnChar (sep : Char) : List Char → List (List Char)
  | [] => [[]]
  | c :: cs =>
    let rest := splitOnChar sep cs
    if c == sep then [] :: rest
    else
      match rest with
      | r :: rs => (c :: r) :: rs
      | [] => [[c]]

/-- Decidable matcher for the one regex in the repository's schemas,
`^[a-zA-Z0-9._%+-]+@[a-zA-Z0-9.-]+\.[a-zA-Z]\x7b2,\x7d$` (the `email`
pattern): one `@`, a non-empty local part of local characters, a domain
with at least one dot whose part before the last dot is non-empty and made
of domain characters and dots, and a final segment of at least two
letters. -/
def emailPatternMatch (s : String) : Bool :=
  match splitOnChar '@' s.data with
  | [localPart, domainPart] =>
    (!localPart.isEmpty) && localPart.all isEmailLocalChar &&
    (let segs := splitOnChar '.' domainPart
     decide (2 ≤ segs.length) &&
     (match segs.getLast? with
      | some tld => decide (2 ≤ tld.length) && tld.all Char.isAlpha
      | none => false) &&
     segs.dropLast.all (fun seg => seg.all isEmailDomainChar) &&
     !(segs.dropLast == [[]]))
  | _ => false

/-- The per-property constraints used by the repository's schemas. `types`
is the schema `type` (a single name or a list such as
`["integer", "null"]`); `minimum`, `minLength` and `pattern` are the
numeric / string constraints. The `format` annotation carried by the email
property is not represented: `jsonschema.validate` is called without a
format checker, so `format` is annotation-only and never enforced. -/
structure PropSchema where
  types : List JTy
  minimum : Option Int := none
  minLength : Option Nat := none
  pattern : Option (String → Bool) := none

/-- An object schema of the shape used throughout the repository:
`type: object`, named `properties`, a `required` list, and an
`additionalProperties` flag. -/
structure Schema where
  properties : List (String × PropSchema)
  required : List String
  additionalProperties : Bool

/-- Look up a property schema by field name. -/
def propLookup (props : List (String × PropSchema)) (k : String) : Option PropSchema :=
  match props.find? (fun p => p.1 == k) with
  | some p => some p.2
  | none => none

/-- The `jsonschema` validation of one field value against its property schema:
the value must inhabit one of the listed types; `minimum` applies to
numbers, `minLength` and `pattern` to strings, and are vacuous on other
types (as in the library). -/
def validProp (p : PropSchema) (v : JValue) : Bool :=
  p.types.any (fun t => tyMatches t v) &&
  (match p.minimum, v with
   | some m, .int n => decide (m ≤ n)
   | _, _ => true) &&
  (match p.minLength, v with
   | some m, .str s => decide (m ≤ s.length)
   | _, _ => true) &&
  (match p.pattern, v with
   | some f, .str s => f s
   | _, _ => true)

/-- Model of `jsonschema.validate(instance, schema)` on an object instance `d`
against an object schema `s`: every required field is present; every
present field either has a property schema it satisfies or — failing a
property entry — is allowed only when `additionalProperties` is true.
Returns `true` when validation raises no `ValidationError`. -/
def validateInstance (s : Schema) (d : Dict) : Bool :=
  s.required.all (fun r => (dictLookup d r).isSome) &&
  d.all (fun kv =>
    match propLookup s.properties kv.1 with
    | some p => validProp p kv.2
    | none => s.additionalProperties)

/-- The `id` property shared by all four default schemas:
`integer, minimum 1`. -/
def idProp : PropSchema := { types := [.integer], minimum := some 1 }

/-- The `name` property shared by all four default schemas:
`string, minLength 1`. -/
def nameProp : PropSchema := { types := [.string], minLength := some 1 }

/-- Schema `DEFAULT_SCHEMAS["users"]` from `src/main.py`. -/
def users_schema : Schema :=
  { properties :=
      [("id", idProp),
       ("name", nameProp),
       ("email", { types := [.string], pattern := some emailPatternMatch })],
    required := ["name", "email"],
    additionalProperties := false }

/-- Schema `DEFAULT_SCHEMAS["locations"]` from `src/main.py`. -/
def locations_schema : Schema :=
  { properties :=
      [("id", idProp),
       ("name", nameProp),
       ("address", { types := [.string], minLength := some 1 })],
    required := ["name", "address"],
    additionalProperties := false }

/-- Schema `DEFAULT_SCHEMAS["devices"]` from `src/main.py`. -/
def devices_schema : Schema :=
  { properties :=
      [("id", idProp),
       ("name", nameProp),
       ("type", { types := [.string], minLength := some 1 }),
       ("location_id", { types := [.integer], minimum := some 1 }),
       ("user_id", { types := [.integer, .null], minimum := some 1 })],
    required := ["name", "type", "location_id"],
    additionalProperties := false }

/-- Schema `DEFAULT_SCHEMAS["consumption"]` from `src/main.py` (same shape as
`devices`). -/
def consumption_schema : Schema :=
  { properties :=
      [("id", idProp),
       ("name", nameProp),
       ("type", { types := [.string], minLength := some 1 }),
       ("location_id", { types := [.integer], minimum := some 1 }),
       ("user_id", { types := [.integer, .null], minimum := some 1 })],
    required := ["name", "type", "location_id"],
    additionalProperties := false }

/-- Model of `ResourceHandler.validate_data`: no schema means no validation (only a
warning is logged); for updates (`check_required = false`) the schema's
`required` list is replaced by `[]` before validating. Returns `true` when
no `ValidationError` is raised. -/
def validate_data (schema : Option Schema) (d : Dict) (check_required : Bool) : Bool :=
  match schema with
  | none => true
  | some s =>
    let s := if check_required then s else { s with required := [] }
    validateInstance s d

/-- Constant `ResourceHandler.DEFAULT_PAGE_SIZE`. -/
def DEFAULT_PAGE_SIZE : Int := 10

/-- Constant `ResourceHandler.MAX_PAGE_SIZE`. -/
def MAX_PAGE_SIZE : Int := 100

/-- Model of `int(request.args.get(key, default))`: a missing query parameter falls
back to the integer default; a present one is parsed with Python `int`,
`none` modelling the `ValueError`. -/
def pyArgInt (param : Option String) (default : Int) : Option Int :=
  match param with
  | none => some default
  | some s => pyIntOfString? s

/-- Model of `ResourceHandler.get_pagination_params`: `page = max(1, int(page))` and
`per_page = min(MAX, max(1, int(per_page)))`; a `ValueError` from either
`int()` call is caught and yields the defaults `(1, DEFAULT_PAGE_SIZE)`. -/
def get_pagination_params (pageParam perPageParam : Option String) : Int × Int :=
  match pyArgInt pageParam 1, pyArgInt perPageParam DEFAULT_PAGE_SIZE with
  | some p, some pp => (max 1 p, min MAX_PAGE_SIZE (max 1 pp))
  | _, _ => (1, DEFAULT_PAGE_SIZE)

/-- A Python runtime error raised by the source. `main.py` imports `os`,
`json`, `flask`, `http`, `pathlib`, `typing`, `functools` and `jsonschema`
but never `math`, so the name `ceil` used on the first line of
`ResourceHandler.get_pagination_metadata` is unbound and its evaluation
raises `NameError`. -/
inductive PyError where
  | nameErrorCeil

set_option linter.unusedVariables false in
/-- Model of `ResourceHandler.get_pagination_metadata`: its first line is
`total_pages = ceil(total_items / per_page)`, and `ceil` is an unbound name
(`from math import ceil` is missing), so the function unconditionally
raises `NameError` for every input. The clamp and the
first/last/next/prev URL construction below that line are dead code and
are therefore not part of the model of this program. -/
def get_pagination_metadata (baseUrl : String) (totalItems : Nat) (page perPage : Int) :
    PyError :=
  PyError.nameErrorCeil

/-- The state of one resource's backing file: `none` when the file does not
exist yet. -/
abbrev DiskFile := Option (List Dict)

/-- Model of `JSONFileHandler.load_json_file`: read the records; a missing file is
created holding an empty list. Returns the records and the file state after
the read. -/
def load_json_file (disk : DiskFile) : List Dict × DiskFile :=
  (disk.getD [], some (disk.getD []))

/-- Outcome of `ResourceHandler.get_all`. Building the response dictionary
evaluates `self.get_pagination_metadata(...)`, which always raises (see
`get_pagination_metadata`), so the only outcome is the uncaught exception,
which Flask converts into a 500 response; the `{data, metadata}` envelope
is never returned by this program. -/
inductive ListResult where
  | internalError (e : PyError)

/-- HTTP status of a `get_all` outcome (Flask's handler for an uncaught
exception). -/
def ListResult.status : ListResult → Nat
  | .internalError _ => 500

set_option linter.unusedVariables false in
/-- Model of `ResourceHandler.get_all`: load (creating a missing file), read
the pagination parameters, compute the slice indices and the slice
`items[start_idx:end_idx]` — all of which succeed — and then build the
response: its `"data"` value (the slice) is evaluated and discarded when
the `"metadata"` value raises `NameError` inside
`get_pagination_metadata`, so every list request ends as a 500 and the
paginated slice never leaves the function. The load's create-if-missing
side effect persists. -/
def get_all (baseUrl : String) (pageParam perPageParam : Option String) (disk : DiskFile) :
    ListResult × DiskFile :=
  let (items, disk) := load_json_file disk
  let totalItems := items.length
  let (page, perPage) := get_pagination_params pageParam perPageParam
  let startIdx := ((page - 1) * perPage).toNat
  let endIdx := startIdx + perPage.toNat
  let paginated := (items.take endIdx).drop startIdx
  (ListResult.internalError (get_pagination_metadata baseUrl totalItems page perPage), disk)

/-- Does a stored record match a path id? The handlers compare
`str(item.get('id')) == str(item_id)` (the path id is already a string). -/
def matchesId (itemId : String) (item : Dict) : Bool :=
  pyStr (pyGet item "id") == itemId

/-- Model of `next((index for index, item in enumerate(items) if ...), None)`: the
index of the first record satisfying the predicate. -/
def pyNextIndex (p : Dict → Bool) : List Dict → Option Nat
  | [] => none
  | x :: xs => if p x then some 0 else (pyNextIndex p xs).map (fun i => i + 1)

/-- Outcome of `ResourceHandler.get_one`. -/
inductive OneResult where
  | ok (item : Dict) (totalItems : Nat)
  | notFound (msg : String)

/-- HTTP status of a `get_one` outcome (`HTTPStatus.NOT_FOUND` on the error
path, 200 otherwise). -/
def OneResult.status : OneResult → Nat
  | .ok _ _ => 200
  | .notFound _ => 404

/-- Model of `ResourceHandler.get_one`: load, linear scan for the first record whose
stringified id equals the path id; missing → 404 naming the (title-cased)
resource; found → `{data: item, metadata: {total_items}}`. -/
def get_one (resource_name : String) (itemId : String) (disk : DiskFile) :
    OneResult × DiskFile :=
  let (items, disk) := load_json_file disk
  match items.find? (matchesId itemId) with
  | none => (.notFound (pyTitle resource_name ++ " not found"), disk)
  | some item => (.ok item items.length, disk)

/-- Outcome of `ResourceHandler.create`. The generic `except Exception`
branch (500) is unreachable in the pure model and has no constructor. -/
inductive CreateResult where
  | badRequestContentType
  | badRequestValidation
  | created (item : Dict) (totalItems : Nat)

/-- HTTP status of a `create` outcome (`BAD_REQUEST` / `CREATED`). -/
def CreateResult.status : CreateResult → Nat
  | .badRequestContentType => 400
  | .badRequestValidation => 400
  | .created _ _ => 201

/-- Model of `ResourceHandler.create`: reject a non-JSON request, validate with
required fields enforced (both before the file is touched), then load,
build `{'id': len(items) + 1, **data}`, append, save, and answer 201 with
the new record and the post-append `total_items`. -/
def create (schema : Option Schema) (isJson : Bool) (data : Dict) (disk : DiskFile) :
    CreateResult × DiskFile :=
  if isJson = false then (.badRequestContentType, disk)
  else if validate_data schema data true = false then (.badRequestValidation, disk)
  else
    let (items, _) := load_json_file disk
    let newItem := dictMerge [("id", JValue.int (items.length + 1))] data
    let newItems := items ++ [newItem]
    (.created newItem newItems.length, some newItems)

/-- Outcome of `ResourceHandler.update`. `internalKeyError` models the
`KeyError` raised by `items[item_index]['id']` when the matched record has
no `'id'` key, converted to a 500 by the `except Exception` handler. -/
inductive UpdateResult where
  | badRequestContentType
  | badRequestValidation
  | notFound (msg : String)
  | internalKeyError
  | ok (item : Dict) (totalItems : Nat)

/-- HTTP status of an `update` outcome. -/
def UpdateResult.status : UpdateResult → Nat
  | .badRequestContentType => 400
  | .badRequestValidation => 400
  | .notFound _ => 404
  | .internalKeyError => 500
  | .ok _ _ => 200

/-- Model of `ResourceHandler.update`: reject a non-JSON request, validate with
required fields NOT enforced (both before the file is touched), then load,
find the first record matching the path id (404 when absent), build
`{'id': items[item_index]['id'], **data}`, write it back at the same index,
save, and answer with the updated record and `total_items`. -/
def update (resource_name : String) (schema : Option Schema) (isJson : Bool)
    (itemId : String) (data : Dict) (disk : DiskFile) : UpdateResult × DiskFile :=
  if isJson = false then (.badRequestContentType, disk)
  else if validate_data schema data false = false then (.badRequestValidation, disk)
  else
    let (items, disk) := load_json_file disk
    match pyNextIndex (matchesId itemId) items with
    | none => (.notFound (pyTitle resource_name ++ " not found"), disk)
    | some i =>
      match dictLookup (items.getD i []) "id" with
      | none => (.internalKeyError, disk)
      | some idVal =>
        let updatedItem := dictMerge [("id", idVal)] data
        let newItems := items.set i updatedItem
        (.ok updatedItem newItems.length, some newItems)

/-- Outcome of `ResourceHandler.delete`. -/
inductive DeleteResult where
  | notFound (msg : String)
  | ok (item : Dict) (totalItems : Nat)

/-- HTTP status of a `delete` outcome. -/
def DeleteResult.status : DeleteResult → Nat
  | .notFound _ => 404
  | .ok _ _ => 200

/-- Model of `ResourceHandler.delete`: load, find the first record matching the path
id (404 when absent), `pop` it, save, and answer with the deleted record
and the post-deletion `total_items`. -/
def delete (resource_name : String) (itemId : String) (disk : DiskFile) :
    DeleteResult × DiskFile :=
  let (items, disk) := load_json_file disk
  match pyNextIndex (matchesId itemId) items with
  | none => (.notFound (pyTitle resource_name ++ " not found"), disk)
  | some i =>
    let deletedItem := items.getD i []
    let newItems := items.eraseIdx i
    (.ok deletedItem newItems.length, some newItems)

/-- Outcome of the `PUT /schemas/<resource_name>` endpoint. -/
inductive SchemaPutResult where
  | badRequestContentType
  | badRequestInvalidSchema
  | ok (s : Schema)

/-- HTTP status of a schema-update outcome. -/
def SchemaPutResult.status : SchemaPutResult → Nat
  | .badRequestContentType => 400
  | .badRequestInvalidSchema => 400
  | .ok _ => 200

/-- The `update_schema` route handler: reject a non-JSON request; then
`validate({}, schema)` — the submitted schema is "checked" by validating
the empty object against it, and any exception yields
`400 "Invalid schema: ..."`; on success the schema is saved and echoed. -/
def update_schema (isJson : Bool) (s : Schema) : SchemaPutResult :=
  if isJson = false then .badRequestContentType
  else if validateInstance s [] then .ok s
  else .badRequestInvalidSchema

/-! ### Helper lemmas -/

theorem find?_append_first {α : Type} {p : α → Bool} (pre post : List α) (a : α)
    (hpre : ∀ x ∈ pre, p x = false) (ha : p a = true) :
    (pre ++ a :: post).find? p = some a := by
  induction pre with
  | nil => simp [List.find?_cons, ha]
  | cons y ys ih =>
    have hy := hpre y (by simp)
    simpa [List.find?_cons, hy] using ih (fun x hx => hpre x (by simp [hx]))

theorem pyNextIndex_append_first {p : Dict → Bool} (pre post : List Dict) (a : Dict)
    (hpre : ∀ x ∈ pre, p x = false) (ha : p a = true) :
    pyNextIndex p (pre ++ a :: post) = some pre.length := by
  induction pre with
  | nil => simp [pyNextIndex, ha]
  | cons y ys ih =>
    have hy := hpre y (by simp)
    have ih2 := ih (fun x hx => hpre x (by simp [hx]))
    simp [pyNextIndex, hy, ih2]

theorem pyNextIndex_eq_none {p : Dict → Bool} (l : List Dict)
    (h : ∀ x ∈ l, p x = false) : pyNextIndex p l = none := by
  induction l with
  | nil => rfl
  | cons y ys ih =>
    have hy := h y (by simp)
    simp [pyNextIndex, hy, ih (fun x hx => h x (by simp [hx]))]

theorem getD_append_mid {α : Type} (pre post : List α) (a d : α) :
    (pre ++ a :: post).getD pre.length d = a := by
  induction pre with
  | nil => rfl
  | cons y ys ih => simpa [List.getD] using ih

theorem set_append_mid {α : Type} (pre post : List α) (a b : α) :
    (pre ++ a :: post).set pre.length b = pre ++ b :: post := by
  induction pre with
  | nil => rfl
  | cons y ys ih => simp [List.set, ih]

theorem eraseIdx_append_mid {α : Type} (pre post : List α) (a : α) :
    (pre ++ a :: post).eraseIdx pre.length = pre ++ post := by
  induction pre with
  | nil => rfl
  | cons y ys ih => simp [List.eraseIdx, ih]

theorem keys_ne_of_dictLookup_eq_none {d : Dict} {k : String}
    (h : dictLookup d k = none) : ∀ kv ∈ d, kv.1 ≠ k := by
  intro kv hmem heq
  rw [dictLookup] at h
  cases hf : d.find? (fun p => p.1 == k) with
  | none =>
    rw [List.find?_eq_none] at hf
    exact hf kv hmem (by simp [heq])
  | some pr => rw [hf] at h; exact Option.noConfusion h

theorem dictLookup_map_replace {d : Dict} {k k0 : String} {v : JValue} (hk : k ≠ k0) :
    dictLookup (d.map (fun p => if p.1 == k then (k, v) else p)) k0 = dictLookup d k0 := by
  induction d with
  | nil => rfl
  | cons p ps ih =>
    by_cases hpk : p.1 = k
    · have hne : (k == k0) = false := by simp [hk]
      have hne2 : (p.1 == k0) = false := by simp [hpk, hk]
      simp [dictLookup, List.find?_cons, hpk, hne, hne2] at ih ⊢
      exact ih
    · by_cases hp0 : p.1 = k0
      · simp [dictLookup, List.find?_cons, hpk, hp0, Ne.symm hk]
      · simp [dictLookup, List.find?_cons, hpk, hp0] at ih ⊢
        exact ih

theorem dictLookup_append_single {d : Dict} {k k0 : String} {v : JValue} (hk : k ≠ k0) :
    dictLookup (d ++ [(k, v)]) k0 = dictLookup d k0 := by
  induction d with
  | nil => simp [dictLookup, List.find?_cons, hk]
  | cons p ps ih =>
    by_cases hp0 : p.1 = k0
    · simp [dictLookup, List.find?_cons, hp0]
    · simp [dictLookup, List.find?_cons, hp0] at ih ⊢
      exact ih

theorem dictInsert_lookup_ne {d : Dict} {k k0 : String} {v : JValue} (hk : k ≠ k0) :
    dictLookup (dictInsert d k v) k0 = dictLookup d k0 := by
  rw [dictInsert]
  by_cases hany : d.any (fun p => p.1 == k)
  · rw [if_pos hany]; exact dictLookup_map_replace hk
  · rw [if_neg hany]; exact dictLookup_append_single hk

theorem dictMerge_lookup_preserved {entries : Dict} {k0 : String}
    (hks : ∀ kv ∈ entries, kv.1 ≠ k0) (base : Dict) :
    dictLookup (dictMerge base entries) k0 = dictLookup base k0 := by
  induction entries generalizing base with
  | nil => rfl
  | cons e es ih =>
    have hstep : dictMerge base (e :: es) = dictMerge (dictInsert base e.1 e.2) es := rfl
    rw [hstep, ih (fun kv hkv => hks kv (by simp [hkv])),
      dictInsert_lookup_ne (hks e (by simp))]

/-! ### Claim theorems -/

/-- A stored `devices` record with id 1. -/
def c1_orig : Dict :=
  [("id", JValue.int 1), ("name", JValue.str "Lamp"),
   ("type", JValue.str "light"), ("location_id", JValue.int 1)]

/-- A schema-valid update payload carrying a different id (5). -/
def c1_payload : Dict :=
  [("id", JValue.int 5), ("name", JValue.str "Lamp"),
   ("type", JValue.str "light"), ("location_id", JValue.int 1)]

/-- C1: the claim says a PUT payload can never change a record's id, but the
code builds `{'id': items[item_index]['id'], **data}`, so a payload
containing an `id` key overwrites the re-pinned original. Evaluated at the
failing input: updating the record with id 1 by a schema-valid payload
whose id is 5 succeeds and stores a record whose id is 5, not 1. -/
theorem claim_C1_payload_overrides_id :
    update "devices" (some devices_schema) true "1" c1_payload (some [c1_orig])
      = (UpdateResult.ok c1_payload 1, some [c1_payload])
    ∧ dictLookup c1_orig "id" = some (JValue.int 1)
    ∧ dictLookup c1_payload "id" = some (JValue.int 5) :=
  ⟨rfl, rfl, rfl⟩

/-- Faithfulness of the create path itself (supporting lemma for the
evaluation below): for any resource state and any schema-valid JSON payload
without an `id` field, `create` assigns `id = len(items) + 1`, appends the
new record at the end, persists the extended sequence, and answers 201
Created with the new record and `total_items = n + 1`. -/
theorem create_assigns_next_id (schema : Option Schema) (items : List Dict)
    (data : Dict) (hnoid : dictLookup data "id" = none)
    (hvalid : validate_data schema data true = true) :
    create schema true data (some items)
      = (CreateResult.created (dictMerge [("id", JValue.int (items.length + 1))] data)
          (items.length + 1),
         some (items ++ [dictMerge [("id", JValue.int (items.length + 1))] data]))
    ∧ dictLookup (dictMerge [("id", JValue.int (items.length + 1))] data) "id"
        = some (JValue.int (items.length + 1))
    ∧ (create schema true data (some items)).1.status = 201 := by
  have hbr : create schema true data (some items)
      = (CreateResult.created (dictMerge [("id", JValue.int (items.length + 1))] data)
          (items.length + 1),
         some (items ++ [dictMerge [("id", JValue.int (items.length + 1))] data])) := by
    rw [create, if_neg (by simp), if_neg (by simp [hvalid])]
    simp [load_json_file]
  refine ⟨hbr, ?_, by rw [hbr]; rfl⟩
  rw [dictMerge_lookup_preserved (keys_ne_of_dictLookup_eq_none hnoid)]
  rfl

/-- The scenario payload `{"name": "Thermostat", "type": "sensor",
"location_id": 1}` posted to `/devices`. -/
def thermoPayload : Dict :=
  [("name", JValue.str "Thermostat"), ("type", JValue.str "sensor"),
   ("location_id", JValue.int 1)]

/-- The record the scenario stores: the payload with `id = 1` in front. -/
def thermoRecord : Dict :=
  [("id", JValue.int 1), ("name", JValue.str "Thermostat"),
   ("type", JValue.str "sensor"), ("location_id", JValue.int 1)]

/-- C2, evaluated at the claim failing input: the create half behaves
exactly as claimed — POST of the scenario payload to an empty `devices`
resource stores it with id 1, persists, and answers 201 Created with
`total_items = 1` — but the claim final clause is false of this program:
the subsequent `GET /devices` never shows `total_items = 1`; it raises
`NameError` (`ceil` is unbound in `get_pagination_metadata`, `math` is
never imported) and is answered as a 500. -/
theorem claim_C2_create_ok_but_list_raises :
    create (some devices_schema) true thermoPayload (some [])
      = (CreateResult.created thermoRecord 1, some [thermoRecord])
    ∧ dictLookup thermoRecord "id" = some (JValue.int 1)
    ∧ (create (some devices_schema) true thermoPayload (some [])).1.status = 201
    ∧ (get_all "http://localhost:3000/devices" none none (some [thermoRecord])).1
        = ListResult.internalError PyError.nameErrorCeil
    ∧ (get_all "http://localhost:3000/devices" none none (some [thermoRecord])).1.status = 500 :=
  ⟨rfl, rfl, rfl, rfl, rfl⟩

/-- Seven sample records with ids 1..7. -/
def c3_items : List Dict :=
  (List.range 7).map (fun i => [("id", JValue.int (i + 1))])

/-- C3, evaluated at the failing input: `get_pagination_params` itself does
compute the claimed clamps and defaults (`page=3, per_page=250` gives
`(3, 100)`; a non-numeric page falls back to `(1, 10)`; absent parameters
default to `(1, 10)`), and `get_all` computes the slice indices — but the
claim "the returned data is exactly the slice ... and never an error" is
false of this program: building the response evaluates
`get_pagination_metadata`, whose first line uses the unbound name `ceil`,
so every `GET` of a collection raises `NameError` and is answered as a 500;
the slice is never returned. The load create-if-missing side effect is
the only state change. -/
theorem claim_C3_list_raises_name_error :
    get_pagination_params (some "3") (some "250") = (3, 100)
    ∧ get_pagination_params (some "abc") (some "7") = (1, 10)
    ∧ get_pagination_params none none = (1, 10)
    ∧ (get_all "u" (some "2") (some "3") (some c3_items)).1
        = ListResult.internalError PyError.nameErrorCeil
    ∧ (get_all "u" (some "2") (some "3") (some c3_items)).1.status = 500
    ∧ (get_all "u" (some "2") (some "3") (some c3_items)).2 = some c3_items :=
  ⟨rfl, rfl, rfl, rfl, rfl, rfl⟩

/-- Twenty-five sample records with ids 1..25 (the claim own example,
`total_items = 25`, `per_page = 10`). -/
def c4_items : List Dict :=
  (List.range 25).map (fun i => [("id", JValue.int (i + 1))])

/-- C4, evaluated at the failing input: the claim describes the fields of
the pagination metadata, but `get_pagination_metadata` raises `NameError`
at its first line (`ceil(total_items / per_page)` with `ceil` unbound —
`main.py` never imports `math`) for every input, so no metadata object —
no `total_pages`, no clamped `current_page`, no page URLs — is ever
produced by this program, and every collection `GET` (here the claim own
25-items, page 1, `per_page = 10` example) is answered as a 500. -/
theorem claim_C4_metadata_never_constructed :
    get_pagination_metadata "http://localhost:3000/devices" 25 1 10 = PyError.nameErrorCeil
    ∧ (get_all "http://localhost:3000/devices" (some "1") (some "10") (some c4_items)).1
        = ListResult.internalError PyError.nameErrorCeil
    ∧ (get_all "http://localhost:3000/devices" (some "1") (some "10") (some c4_items)).1.status
        = 500 :=
  ⟨rfl, rfl, rfl⟩

/-- C5: validation in update mode (`check_required = false`) ignores the
schema's required list — it depends only on `properties` and
`additionalProperties`; a present field violating its property constraints
makes it fail, as does a field not declared in the schema when
`additionalProperties` is false; and in create mode a `users` payload
missing `email`, or one carrying a field unknown to the `users` schema, is
rejected by `create` with BadRequest (400). -/
theorem validateInstance_false_of_field (sx : Schema) (d : Dict) (k : String) (v : JValue)
    (hmem : (k, v) ∈ d)
    (hbad : (match propLookup sx.properties k with
             | some p => validProp p v
             | none => sx.additionalProperties) = false) :
    validateInstance sx d = false := by
  have hall : d.all (fun kv =>
      match propLookup sx.properties kv.1 with
      | some p => validProp p kv.2
      | none => sx.additionalProperties) = false :=
    List.all_eq_false.mpr ⟨(k, v), hmem, by simp [hbad]⟩
  rw [validateInstance, hall, Bool.and_false]

theorem claim_C5_validation (s : Schema) (d : Dict) :
    (∀ s2 : Schema, s.properties = s2.properties →
      s.additionalProperties = s2.additionalProperties →
      validate_data (some s) d false = validate_data (some s2) d false)
    ∧ (∀ k v p, (k, v) ∈ d → propLookup s.properties k = some p →
        validProp p v = false → validate_data (some s) d false = false)
    ∧ (∀ k v, (k, v) ∈ d → propLookup s.properties k = none →
        s.additionalProperties = false → validate_data (some s) d false = false)
    ∧ (∀ disk, dictLookup d "email" = none →
        (create (some users_schema) true d disk).1 = CreateResult.badRequestValidation
        ∧ CreateResult.badRequestValidation.status = 400)
    ∧ (∀ disk k v, (k, v) ∈ d → propLookup users_schema.properties k = none →
        (create (some users_schema) true d disk).1 = CreateResult.badRequestValidation) := by
  refine ⟨?_, ?_, ?_, ?_, ?_⟩
  · intro s2 hprops haddl
    cases s
    cases s2
    simp only at hprops haddl
    subst hprops
    subst haddl
    rfl
  · intro k v p hmem hlk hbad
    have hred : validate_data (some s) d false
        = validateInstance { s with required := ([] : List String) } d := rfl
    rw [hred]
    refine validateInstance_false_of_field _ d k v hmem ?_
    show (match propLookup s.properties k with
          | some p => validProp p v
          | none => s.additionalProperties) = false
    rw [hlk]
    exact hbad
  · intro k v hmem hlk haddl
    have hred : validate_data (some s) d false
        = validateInstance { s with required := ([] : List String) } d := rfl
    rw [hred]
    refine validateInstance_false_of_field _ d k v hmem ?_
    show (match propLookup s.properties k with
          | some p => validProp p v
          | none => s.additionalProperties) = false
    rw [hlk]
    exact haddl
  · intro disk hmail
    have hinv : validate_data (some users_schema) d true = false := by
      have hred : validate_data (some users_schema) d true
          = validateInstance users_schema d := rfl
      rw [hred, validateInstance]
      have hreq : users_schema.required.all (fun r => (dictLookup d r).isSome) = false :=
        List.all_eq_false.mpr ⟨"email", by simp [users_schema], by simp [hmail]⟩
      rw [hreq, Bool.false_and]
    exact ⟨by rw [create, if_neg (by simp), if_pos (by simp [hinv])], rfl⟩
  · intro disk k v hmem hlk
    have hinv : validate_data (some users_schema) d true = false := by
      have hred : validate_data (some users_schema) d true
          = validateInstance users_schema d := rfl
      rw [hred]
      refine validateInstance_false_of_field users_schema d k v hmem ?_
      rw [hlk]
      rfl
    rw [create, if_neg (by simp), if_pos (by simp [hinv])]

/-- Witness for C5: with the `users` schema, an update payload without the
required `email` passes, a wrongly-typed `name` fails, and `create` rejects
with 400 both a payload missing `email` and one with an unknown extra
field. -/
theorem claim_C5_witness :
    validate_data (some users_schema) [("name", JValue.str "A")] false = true
    ∧ validate_data (some users_schema) [("name", JValue.int 5)] false = false
    ∧ (create (some users_schema) true [("name", JValue.str "A")] (some [])).1
        = CreateResult.badRequestValidation
    ∧ (create (some users_schema) true
        [("name", JValue.str "A"), ("email", JValue.str "a@b.com"), ("x", JValue.int 1)]
        (some [])).1 = CreateResult.badRequestValidation
    ∧ CreateResult.badRequestValidation.status = 400 := by
  have hbadtype := (claim_C5_validation users_schema [("name", JValue.int 5)]).2.1
    "name" (JValue.int 5) nameProp (by simp) rfl rfl
  have hnomail := (claim_C5_validation users_schema [("name", JValue.str "A")]).2.2.2.1
    (some []) rfl
  have hextra := (claim_C5_validation users_schema
      [("name", JValue.str "A"), ("email", JValue.str "a@b.com"), ("x", JValue.int 1)]).2.2.2.2
    (some []) "x" (JValue.int 1) (by simp) rfl
  exact ⟨rfl, hbadtype, hnomail.1, hextra, hnomail.2⟩

/-- C6: `get_one` returns the first record (in storage order) whose
stringified id equals the path id, wrapped with `total_items`; when no
record matches — in particular on an empty resource — it answers 404 with a
message naming the (title-cased) resource, leaving the stored sequence as
read. -/
theorem claim_C6_get_one (resource_name itemId : String) :
    (∀ pre post (item : Dict), (∀ x ∈ pre, matchesId itemId x = false) →
      matchesId itemId item = true →
      get_one resource_name itemId (some (pre ++ item :: post))
        = (OneResult.ok item (pre ++ item :: post).length, some (pre ++ item :: post)))
    ∧ (∀ items : List Dict, (∀ x ∈ items, matchesId itemId x = false) →
        get_one resource_name itemId (some items)
          = (OneResult.notFound (pyTitle resource_name ++ " not found"), some items)
        ∧ (get_one resource_name itemId (some items)).1.status = 404) := by
  constructor
  · intro pre post item hpre hitem
    rw [get_one]
    simp only [load_json_file, Option.getD_some]
    rw [find?_append_first pre post item hpre hitem]
  · intro items hnone
    have hfind : items.find? (matchesId itemId) = none :=
      List.find?_eq_none.mpr (fun x hx => by simp [hnone x hx])
    have heq : get_one resource_name itemId (some items)
        = (OneResult.notFound (pyTitle resource_name ++ " not found"), some items) := by
      rw [get_one]
      simp only [load_json_file, Option.getD_some]
      rw [hfind]
    exact ⟨heq, by rw [heq]; rfl⟩

/-- Witness for C6: `get_one("999")` on an empty `devices` resource is a 404
whose body says "Devices not found", and with two stored records the path
id "2" returns the second record with `total_items = 2`. -/
theorem claim_C6_witness :
    get_one "devices" "999" (some []) = (OneResult.notFound "Devices not found", some [])
    ∧ (get_one "devices" "999" (some [])).1.status = 404
    ∧ get_one "devices" "2" (some [[("id", JValue.int 1)], [("id", JValue.int 2)]])
        = (OneResult.ok [("id", JValue.int 2)] 2,
           some [[("id", JValue.int 1)], [("id", JValue.int 2)]]) := by
  have hempty := (claim_C6_get_one "devices" "999").2 [] (by simp)
  have hfound := (claim_C6_get_one "devices" "2").1 [[("id", JValue.int 1)]] []
    [("id", JValue.int 2)] (by decide) rfl
  exact ⟨hempty.1, hempty.2, hfound⟩

/-- C7: when a record matches the path id, `delete` removes exactly the
first matching record, leaves every other record in place unchanged (no id
renumbering), persists the shortened sequence, and returns the deleted
record with the post-deletion `total_items`; when none matches it answers
404 and the stored sequence is unchanged. -/
theorem claim_C7_delete (resource_name itemId : String) :
    (∀ pre post (item : Dict), (∀ x ∈ pre, matchesId itemId x = false) →
      matchesId itemId item = true →
      delete resource_name itemId (some (pre ++ item :: post))
        = (DeleteResult.ok item (pre ++ post).length, some (pre ++ post)))
    ∧ (∀ items : List Dict, (∀ x ∈ items, matchesId itemId x = false) →
        delete resource_name itemId (some items)
          = (DeleteResult.notFound (pyTitle resource_name ++ " not found"), some items)
        ∧ (delete resource_name itemId (some items)).1.status = 404) := by
  constructor
  · intro pre post item hpre hitem
    rw [delete]
    simp only [load_json_file, Option.getD_some]
    rw [pyNextIndex_append_first pre post item hpre hitem]
    simp only [getD_append_mid, eraseIdx_append_mid]
  · intro items hnone
    have heq : delete resource_name itemId (some items)
        = (DeleteResult.notFound (pyTitle resource_name ++ " not found"), some items) := by
      rw [delete]
      simp only [load_json_file, Option.getD_some]
      rw [pyNextIndex_eq_none items hnone]
    exact ⟨heq, by rw [heq]; rfl⟩

/-- Witness for C7: deleting id "1" from records 1, 2 returns record 1 with
`total_items = 1` and persists only record 2 (still carrying id 2); an
unmatched id answers 404 with the sequence unchanged. -/
theorem claim_C7_witness :
    delete "devices" "1" (some [[("id", JValue.int 1)], [("id", JValue.int 2)]])
      = (DeleteResult.ok [("id", JValue.int 1)] 1, some [[("id", JValue.int 2)]])
    ∧ delete "devices" "9" (some [[("id", JValue.int 1)]])
        = (DeleteResult.notFound "Devices not found", some [[("id", JValue.int 1)]]) := by
  have hdel := (claim_C7_delete "devices" "1").1 [] [[("id", JValue.int 2)]]
    [("id", JValue.int 1)] (by simp) rfl
  have hmiss := (claim_C7_delete "devices" "9").2 [[("id", JValue.int 1)]] (by decide)
  exact ⟨hdel, hmiss.1⟩

/-- C8: `PUT /schemas/<name>` "validates" a submitted schema by checking the
empty object `{}` against it (`validate({}, schema)`), so it accepts a
schema exactly when `{}` validates, which — `{}` having no fields — holds
exactly when the schema's `required` list is empty; every schema with a
non-empty `required` list, though a well-formed JSON Schema, is rejected
with 400 "Invalid schema". -/
theorem claim_C8_schema_put (s : Schema) :
    (update_schema true s = SchemaPutResult.ok s ↔ validateInstance s [] = true)
    ∧ (validateInstance s [] = true ↔ s.required = [])
    ∧ (s.required ≠ [] →
        update_schema true s = SchemaPutResult.badRequestInvalidSchema
        ∧ SchemaPutResult.badRequestInvalidSchema.status = 400) := by
  have hred : validateInstance s [] = s.required.all (fun r => (dictLookup [] r).isSome) := by
    rw [validateInstance]
    simp
  have hiff : validateInstance s [] = true ↔ s.required = [] := by
    rw [hred]
    simp only [List.all_eq_true]
    constructor
    · intro h
      rw [List.eq_nil_iff_forall_not_mem]
      intro r hr
      have := h r hr
      simp [dictLookup] at this
    · intro h
      simp [h]
  refine ⟨?_, hiff, ?_⟩
  · constructor
    · intro h
      by_cases hv : validateInstance s []
      · exact hv
      · rw [update_schema, if_neg (by simp), if_neg (by simp [hv])] at h
        exact SchemaPutResult.noConfusion h
    · intro hv
      rw [update_schema, if_neg (by simp), if_pos hv]
  · intro hne
    have hv : validateInstance s [] = false := by
      cases hb : validateInstance s []
      · rfl
      · exact absurd (hiff.mp hb) hne
    exact ⟨by rw [update_schema, if_neg (by simp), if_neg (by simp [hv])], rfl⟩

/-- Witness for C8: all four built-in default schemas (whose `required`
lists are non-empty) are rejected by the schema-update endpoint. -/
theorem claim_C8_witness :
    update_schema true users_schema = SchemaPutResult.badRequestInvalidSchema
    ∧ update_schema true locations_schema = SchemaPutResult.badRequestInvalidSchema
    ∧ update_schema true devices_schema = SchemaPutResult.badRequestInvalidSchema
    ∧ update_schema true consumption_schema = SchemaPutResult.badRequestInvalidSchema
    ∧ SchemaPutResult.badRequestInvalidSchema.status = 400 := by
  have h1 := (claim_C8_schema_put users_schema).2.2 (by simp [users_schema])
  have h2 := (claim_C8_schema_put locations_schema).2.2 (by simp [locations_schema])
  have h3 := (claim_C8_schema_put devices_schema).2.2 (by simp [devices_schema])
  have h4 := (claim_C8_schema_put consumption_schema).2.2 (by simp [consumption_schema])
  exact ⟨h1.1, h2.1, h3.1, h4.1, h1.2⟩

/-- C9: when several stored records share the same stringified id, the three
id-addressed operations act on the first one in sequence order only:
`get_one` returns it, `update` rewrites it in place (the suffix `post`,
which may contain further records with the same id, is untouched), and
`delete` removes exactly it. -/
theorem claim_C9_first_match_only (resource_name itemId : String)
    (schema : Option Schema) (data : Dict) (pre post : List Dict) (item : Dict)
    (idVal : JValue)
    (hpre : ∀ x ∈ pre, matchesId itemId x = false)
    (hitem : matchesId itemId item = true)
    (hid : dictLookup item "id" = some idVal)
    (hval : validate_data schema data false = true) :
    get_one resource_name itemId (some (pre ++ item :: post))
      = (OneResult.ok item (pre ++ item :: post).length, some (pre ++ item :: post))
    ∧ update resource_name schema true itemId data (some (pre ++ item :: post))
        = (UpdateResult.ok (dictMerge [("id", idVal)] data)
            (pre ++ dictMerge [("id", idVal)] data :: post).length,
           some (pre ++ dictMerge [("id", idVal)] data :: post))
    ∧ delete resource_name itemId (some (pre ++ item :: post))
        = (DeleteResult.ok item (pre ++ post).length, some (pre ++ post)) := by
  refine ⟨?_, ?_, ?_⟩
  · rw [get_one]
    simp only [load_json_file, Option.getD_some]
    rw [find?_append_first pre post item hpre hitem]
  · rw [update, if_neg (by simp), if_neg (by simp [hval])]
    simp only [load_json_file, Option.getD_some]
    rw [pyNextIndex_append_first pre post item hpre hitem]
    simp only [getD_append_mid]
    rw [hid]
    simp only [set_append_mid]
  · rw [delete]
    simp only [load_json_file, Option.getD_some]
    rw [pyNextIndex_append_first pre post item hpre hitem]
    simp only [getD_append_mid, eraseIdx_append_mid]

/-- First of two records sharing id 1. -/
def dup1a : Dict := [("id", JValue.int 1), ("name", JValue.str "first")]

/-- Second of two records sharing id 1. -/
def dup1b : Dict := [("id", JValue.int 1), ("name", JValue.str "second")]

/-- Witness for C9: with two records both carrying id 1, `get_one` returns
the first, `update` rewrites only the first, and `delete` removes only the
first, leaving the duplicate in place. -/
theorem claim_C9_witness :
    get_one "devices" "1" (some [dup1a, dup1b])
      = (OneResult.ok dup1a 2, some [dup1a, dup1b])
    ∧ update "devices" none true "1" [("name", JValue.str "patched")] (some [dup1a, dup1b])
        = (UpdateResult.ok [("id", JValue.int 1), ("name", JValue.str "patched")] 2,
           some [[("id", JValue.int 1), ("name", JValue.str "patched")], dup1b])
    ∧ delete "devices" "1" (some [dup1a, dup1b])
        = (DeleteResult.ok dup1a 1, some [dup1b]) := by
  have h := claim_C9_first_match_only "devices" "1" none
    [("name", JValue.str "patched")] [] [dup1b] dup1a (JValue.int 1)
    (by simp) rfl rfl rfl
  exact ⟨h.1, h.2.1, h.2.2⟩

/-- C10: whenever `create` or `update` answers BadRequest (400: missing JSON
content type or schema-validation failure), the resource's backing file is
left exactly as it was — in the model, the `DiskFile` state is returned
unchanged (not even created), because both checks run before
`load_json_file` and no save happens on those paths. -/
theorem claim_C10_no_write_on_bad_request (resource_name : String)
    (schema : Option Schema) (isJson : Bool) (itemId : String) (data : Dict)
    (disk : DiskFile) :
    ((create schema isJson data disk).1.status = 400 →
      (create schema isJson data disk).2 = disk)
    ∧ ((update resource_name schema isJson itemId data disk).1.status = 400 →
      (update resource_name schema isJson itemId data disk).2 = disk) := by
  constructor
  · intro hst
    by_cases hj : isJson = false
    · rw [create, if_pos hj]
    · by_cases hv : validate_data schema data true = false
      · rw [create, if_neg hj, if_pos hv]
      · rw [create, if_neg hj, if_neg hv] at hst ⊢
        simp only [load_json_file] at hst
        exact absurd hst (by simp [CreateResult.status])
  · by_cases hj : isJson = false
    · rw [update, if_pos hj]
      intro _
      rfl
    · by_cases hv : validate_data schema data false = false
      · rw [update, if_neg hj, if_pos hv]
        intro _
        rfl
      · rw [update, if_neg hj, if_neg hv]
        simp only [load_json_file]
        split
        · intro hst
          simp [UpdateResult.status] at hst
        · split
          · intro hst
            simp [UpdateResult.status] at hst
          · intro hst
            simp [UpdateResult.status] at hst

/-- Witness for C10: a `create` without JSON content type on an absent file
leaves the file absent (it is not even created), and an `update` whose
payload has a field unknown to the `users` schema leaves the stored
sequence untouched. -/
theorem claim_C10_witness :
    (create (some users_schema) false [("name", JValue.str "A")] none).2 = none
    ∧ (update "users" (some users_schema) true "1" [("x", JValue.int 1)]
        (some [dup1a])).2 = some [dup1a] := by
  have h1 := (claim_C10_no_write_on_bad_request "users" (some users_schema) false "1"
    [("name", JValue.str "A")] none).1 rfl
  have h2 := (claim_C10_no_write_on_bad_request "users" (some users_schema) true "1"
    [("x", JValue.int 1)] (some [dup1a])).2 rfl
  exact ⟨h1, h2⟩

end RestServer
